import Mathlib

/-!
Verification of the Minecraft fishing income estimator
(`src/20250727mc-fish/man10-fish.py`).

The program is a single pure arithmetic pipeline: a flat configuration
record of numeric parameters is mapped to a flat result record of derived
per-hour counts and revenue figures.  Python `float` fields are embedded
as `ℚ` (the spec treats all quantities as exact reals with no rounding
until display) and Python `int` fields as `ℤ`.  Python raises
`ZeroDivisionError` on division by zero for both `int` and `float`
operands, so division is embedded as a fallible operation in the
`Except` monad, with the divisions performed in the program's source
order.
-/

namespace Man10Fish

/-- The Python `Config` dataclass (`man10-fish.py`, lines 30-88), with the
documented default for every field.  `float` fields become `ℚ`, `int`
fields become `ℤ`. -/
structure Config where
  catches_per_hour : ℚ := 500
  treasure_rate : ℚ := 0.113
  treasure_types : ℤ := 6
  fish_rate_cod : ℚ := 0.60
  fish_rate_salmon : ℚ := 0.25
  fish_rate_puffer : ℚ := 0.13
  fish_rate_tropical : ℚ := 0.02
  fish_price_cod : ℤ := 20
  fish_price_salmon : ℤ := 80
  fish_price_puffer : ℤ := 180
  fish_price_tropical : ℤ := 400
  book_mending_rate : ℚ := 0.0377
  book_mending_single_rate : ℚ := 0.409
  book_mending_multi_rate : ℚ := 0.591
  book_smite_only_rate : ℚ := 0.0074
  book_bane_only_rate : ℚ := 0.0049
  book_unb3_only_rate : ℚ := 0.0143
  avg_enchants_per_book : ℚ := 2.11
  avg_xp_per_enchant : ℚ := 25.0
  avg_xp_per_catch : ℚ := 3.5
  xp_cash_numer : ℚ := 40.0
  xp_cash_denom : ℚ := 12.0
  avg_enchants_per_tool : ℚ := 3.0
  price_mending_single : ℤ := 220000
  price_mending_multi : ℤ := 120000
  price_smite_only : ℤ := 15000
  price_bane_only : ℤ := 15000
  price_unb3_only : ℤ := 5000
deriving DecidableEq

/-- The string-keyed mapping returned by `compute_income`
(`man10-fish.py`, lines 169-194), embedded as a fixed-shape record with
one field per key, in the source's key order. -/
structure Result where
  treasures_per_hour : ℚ
  books_per_hour : ℚ
  mending_books_per_hour : ℚ
  mending_single_books : ℚ
  mending_multi_books : ℚ
  sellable_non_mending_books : ℚ
  grind_books : ℚ
  tools_per_hour : ℚ
  fish_per_hour : ℚ
  cod : ℚ
  salmon : ℚ
  puffer : ℚ
  tropical : ℚ
  revenue_fish : ℚ
  yen_from_fishing : ℚ
  revenue_mending : ℚ
  revenue_non_mending : ℚ
  yen_from_books : ℚ
  yen_from_tools : ℚ
  total_yen_per_hour : ℚ
  yen_per_xp : ℚ
  xp_from_fishing : ℚ
  xp_from_books : ℚ
  xp_from_tools : ℚ
deriving DecidableEq

/-- The error Python raises when a division's denominator is zero. -/
inductive PyError where
  | zeroDivision
deriving DecidableEq

/-- Python division: raises `ZeroDivisionError` when the denominator is
zero (for `int` and `float` operands alike), otherwise exact division. -/
def pydiv (a b : ℚ) : Except PyError ℚ :=
  if b = 0 then Except.error PyError.zeroDivision else Except.ok (a / b)

/-- `compute_income` (`man10-fish.py`, lines 91-194): the income
estimation pipeline, with each named intermediate bound in the source's
order and the three divisions (lines 93, 99 and 134) performed as
fallible Python divisions. -/
def compute_income (cfg : Config) : Except PyError Result := do
  let yen_per_xp ← pydiv cfg.xp_cash_numer cfg.xp_cash_denom
  let treasures_per_hour := cfg.catches_per_hour * cfg.treasure_rate
  let books_per_hour ← pydiv treasures_per_hour (cfg.treasure_types : ℚ)
  let mending_books_per_hour := books_per_hour * cfg.book_mending_rate
  let mending_single_books := mending_books_per_hour * cfg.book_mending_single_rate
  let mending_multi_books := mending_books_per_hour * cfg.book_mending_multi_rate
  let revenue_mending :=
    mending_single_books * (cfg.price_mending_single : ℚ)
    + mending_multi_books * (cfg.price_mending_multi : ℚ)
  let sellable_non_mending_rate :=
    cfg.book_smite_only_rate + cfg.book_bane_only_rate + cfg.book_unb3_only_rate
  let sellable_non_mending_books := books_per_hour * sellable_non_mending_rate
  let revenue_non_mending :=
    books_per_hour * cfg.book_smite_only_rate * (cfg.price_smite_only : ℚ)
    + books_per_hour * cfg.book_bane_only_rate * (cfg.price_bane_only : ℚ)
    + books_per_hour * cfg.book_unb3_only_rate * (cfg.price_unb3_only : ℚ)
  let grind_books := books_per_hour - mending_books_per_hour - sellable_non_mending_books
  let xp_from_books := grind_books * cfg.avg_enchants_per_book * cfg.avg_xp_per_enchant
  let yen_from_books := xp_from_books * yen_per_xp
  let two_over_types ← pydiv 2 (cfg.treasure_types : ℚ)
  let tools_per_hour := treasures_per_hour * two_over_types
  let xp_from_tools := tools_per_hour * cfg.avg_enchants_per_tool * cfg.avg_xp_per_enchant
  let yen_from_tools := xp_from_tools * yen_per_xp
  let xp_from_fishing := cfg.catches_per_hour * cfg.avg_xp_per_catch
  let yen_from_fishing := xp_from_fishing * yen_per_xp
  let fish_rate_total := 1 - cfg.treasure_rate
  let fish_per_hour := cfg.catches_per_hour * fish_rate_total
  let cod := fish_per_hour * cfg.fish_rate_cod
  let salmon := fish_per_hour * cfg.fish_rate_salmon
  let puffer := fish_per_hour * cfg.fish_rate_puffer
  let tropical := fish_per_hour * cfg.fish_rate_tropical
  let revenue_fish :=
    cod * (cfg.fish_price_cod : ℚ)
    + salmon * (cfg.fish_price_salmon : ℚ)
    + puffer * (cfg.fish_price_puffer : ℚ)
    + tropical * (cfg.fish_price_tropical : ℚ)
  let total :=
    revenue_fish + yen_from_fishing + revenue_mending
    + revenue_non_mending + yen_from_books + yen_from_tools
  return {
    treasures_per_hour := treasures_per_hour
    books_per_hour := books_per_hour
    mending_books_per_hour := mending_books_per_hour
    mending_single_books := mending_single_books
    mending_multi_books := mending_multi_books
    sellable_non_mending_books := sellable_non_mending_books
    grind_books := grind_books
    tools_per_hour := tools_per_hour
    fish_per_hour := fish_per_hour
    cod := cod
    salmon := salmon
    puffer := puffer
    tropical := tropical
    revenue_fish := revenue_fish
    yen_from_fishing := yen_from_fishing
    revenue_mending := revenue_mending
    revenue_non_mending := revenue_non_mending
    yen_from_books := yen_from_books
    yen_from_tools := yen_from_tools
    total_yen_per_hour := total
    yen_per_xp := yen_per_xp
    xp_from_fishing := xp_from_fishing
    xp_from_books := xp_from_books
    xp_from_tools := xp_from_tools }

/-- The default configuration: every field at its documented default. -/
def defaultConfig : Config := {}

/-- Closed form of the pipeline: when both divisors are nonzero no
division raises, and every result field is the arithmetic expression
obtained by expanding the source's intermediate bindings. -/
theorem compute_income_eq (cfg : Config) (hd : cfg.xp_cash_denom ≠ 0)
    (ht : (cfg.treasure_types : ℚ) ≠ 0) :
    compute_income cfg = Except.ok {
      treasures_per_hour := cfg.catches_per_hour * cfg.treasure_rate
      books_per_hour := cfg.catches_per_hour * cfg.treasure_rate / (cfg.treasure_types : ℚ)
      mending_books_per_hour :=
        cfg.catches_per_hour * cfg.treasure_rate / (cfg.treasure_types : ℚ)
          * cfg.book_mending_rate
      mending_single_books :=
        cfg.catches_per_hour * cfg.treasure_rate / (cfg.treasure_types : ℚ)
          * cfg.book_mending_rate * cfg.book_mending_single_rate
      mending_multi_books :=
        cfg.catches_per_hour * cfg.treasure_rate / (cfg.treasure_types : ℚ)
          * cfg.book_mending_rate * cfg.book_mending_multi_rate
      sellable_non_mending_books :=
        cfg.catches_per_hour * cfg.treasure_rate / (cfg.treasure_types : ℚ)
          * (cfg.book_smite_only_rate + cfg.book_bane_only_rate + cfg.book_unb3_only_rate)
      grind_books :=
        cfg.catches_per_hour * cfg.treasure_rate / (cfg.treasure_types : ℚ)
          - cfg.catches_per_hour * cfg.treasure_rate / (cfg.treasure_types : ℚ)
              * cfg.book_mending_rate
          - cfg.catches_per_hour * cfg.treasure_rate / (cfg.treasure_types : ℚ)
              * (cfg.book_smite_only_rate + cfg.book_bane_only_rate + cfg.book_unb3_only_rate)
      tools_per_hour :=
        cfg.catches_per_hour * cfg.treasure_rate * (2 / (cfg.treasure_types : ℚ))
      fish_per_hour := cfg.catches_per_hour * (1 - cfg.treasure_rate)
      cod := cfg.catches_per_hour * (1 - cfg.treasure_rate) * cfg.fish_rate_cod
      salmon := cfg.catches_per_hour * (1 - cfg.treasure_rate) * cfg.fish_rate_salmon
      puffer := cfg.catches_per_hour * (1 - cfg.treasure_rate) * cfg.fish_rate_puffer
      tropical := cfg.catches_per_hour * (1 - cfg.treasure_rate) * cfg.fish_rate_tropical
      revenue_fish :=
        cfg.catches_per_hour * (1 - cfg.treasure_rate) * cfg.fish_rate_cod
            * (cfg.fish_price_cod : ℚ)
          + cfg.catches_per_hour * (1 - cfg.treasure_rate) * cfg.fish_rate_salmon
              * (cfg.fish_price_salmon : ℚ)
          + cfg.catches_per_hour * (1 - cfg.treasure_rate) * cfg.fish_rate_puffer
              * (cfg.fish_price_puffer : ℚ)
          + cfg.catches_per_hour * (1 - cfg.treasure_rate) * cfg.fish_rate_tropical
              * (cfg.fish_price_tropical : ℚ)
      yen_from_fishing :=
        cfg.catches_per_hour * cfg.avg_xp_per_catch
          * (cfg.xp_cash_numer / cfg.xp_cash_denom)
      revenue_mending :=
        cfg.catches_per_hour * cfg.treasure_rate / (cfg.treasure_types : ℚ)
            * cfg.book_mending_rate * cfg.book_mending_single_rate
            * (cfg.price_mending_single : ℚ)
          + cfg.catches_per_hour * cfg.treasure_rate / (cfg.treasure_types : ℚ)
              * cfg.book_mending_rate * cfg.book_mending_multi_rate
              * (cfg.price_mending_multi : ℚ)
      revenue_non_mending :=
        cfg.catches_per_hour * cfg.treasure_rate / (cfg.treasure_types : ℚ)
            * cfg.book_smite_only_rate * (cfg.price_smite_only : ℚ)
          + cfg.catches_per_hour * cfg.treasure_rate / (cfg.treasure_types : ℚ)
              * cfg.book_bane_only_rate * (cfg.price_bane_only : ℚ)
          + cfg.catches_per_hour * cfg.treasure_rate / (cfg.treasure_types : ℚ)
              * cfg.book_unb3_only_rate * (cfg.price_unb3_only : ℚ)
      yen_from_books :=
        (cfg.catches_per_hour * cfg.treasure_rate / (cfg.treasure_types : ℚ)
            - cfg.catches_per_hour * cfg.treasure_rate / (cfg.treasure_types : ℚ)
                * cfg.book_mending_rate
            - cfg.catches_per_hour * cfg.treasure_rate / (cfg.treasure_types : ℚ)
                * (cfg.book_smite_only_rate + cfg.book_bane_only_rate
                    + cfg.book_unb3_only_rate))
          * cfg.avg_enchants_per_book * cfg.avg_xp_per_enchant
          * (cfg.xp_cash_numer / cfg.xp_cash_denom)
      yen_from_tools :=
        cfg.catches_per_hour * cfg.treasure_rate * (2 / (cfg.treasure_types : ℚ))
          * cfg.avg_enchants_per_tool * cfg.avg_xp_per_enchant
          * (cfg.xp_cash_numer / cfg.xp_cash_denom)
      total_yen_per_hour :=
        (cfg.catches_per_hour * (1 - cfg.treasure_rate) * cfg.fish_rate_cod
              * (cfg.fish_price_cod : ℚ)
            + cfg.catches_per_hour * (1 - cfg.treasure_rate) * cfg.fish_rate_salmon
                * (cfg.fish_price_salmon : ℚ)
            + cfg.catches_per_hour * (1 - cfg.treasure_rate) * cfg.fish_rate_puffer
                * (cfg.fish_price_puffer : ℚ)
            + cfg.catches_per_hour * (1 - cfg.treasure_rate) * cfg.fish_rate_tropical
                * (cfg.fish_price_tropical : ℚ))
          + cfg.catches_per_hour * cfg.avg_xp_per_catch
              * (cfg.xp_cash_numer / cfg.xp_cash_denom)
          + (cfg.catches_per_hour * cfg.treasure_rate / (cfg.treasure_types : ℚ)
                * cfg.book_mending_rate * cfg.book_mending_single_rate
                * (cfg.price_mending_single : ℚ)
              + cfg.catches_per_hour * cfg.treasure_rate / (cfg.treasure_types : ℚ)
                  * cfg.book_mending_rate * cfg.book_mending_multi_rate
                  * (cfg.price_mending_multi : ℚ))
          + (cfg.catches_per_hour * cfg.treasure_rate / (cfg.treasure_types : ℚ)
                * cfg.book_smite_only_rate * (cfg.price_smite_only : ℚ)
              + cfg.catches_per_hour * cfg.treasure_rate / (cfg.treasure_types : ℚ)
                  * cfg.book_bane_only_rate * (cfg.price_bane_only : ℚ)
              + cfg.catches_per_hour * cfg.treasure_rate / (cfg.treasure_types : ℚ)
                  * cfg.book_unb3_only_rate * (cfg.price_unb3_only : ℚ))
          + (cfg.catches_per_hour * cfg.treasure_rate / (cfg.treasure_types : ℚ)
                - cfg.catches_per_hour * cfg.treasure_rate / (cfg.treasure_types : ℚ)
                    * cfg.book_mending_rate
                - cfg.catches_per_hour * cfg.treasure_rate / (cfg.treasure_types : ℚ)
                    * (cfg.book_smite_only_rate + cfg.book_bane_only_rate
                        + cfg.book_unb3_only_rate))
              * cfg.avg_enchants_per_book * cfg.avg_xp_per_enchant
              * (cfg.xp_cash_numer / cfg.xp_cash_denom)
          + cfg.catches_per_hour * cfg.treasure_rate * (2 / (cfg.treasure_types : ℚ))
              * cfg.avg_enchants_per_tool * cfg.avg_xp_per_enchant
              * (cfg.xp_cash_numer / cfg.xp_cash_denom)
      yen_per_xp := cfg.xp_cash_numer / cfg.xp_cash_denom
      xp_from_fishing := cfg.catches_per_hour * cfg.avg_xp_per_catch
      xp_from_books :=
        (cfg.catches_per_hour * cfg.treasure_rate / (cfg.treasure_types : ℚ)
            - cfg.catches_per_hour * cfg.treasure_rate / (cfg.treasure_types : ℚ)
                * cfg.book_mending_rate
            - cfg.catches_per_hour * cfg.treasure_rate / (cfg.treasure_types : ℚ)
                * (cfg.book_smite_only_rate + cfg.book_bane_only_rate
                    + cfg.book_unb3_only_rate))
          * cfg.avg_enchants_per_book * cfg.avg_xp_per_enchant
      xp_from_tools :=
        cfg.catches_per_hour * cfg.treasure_rate * (2 / (cfg.treasure_types : ℚ))
          * cfg.avg_enchants_per_tool * cfg.avg_xp_per_enchant } := by
  simp only [compute_income, pydiv, if_neg hd, if_neg ht, bind, Except.bind, pure,
    Except.pure]

/-- A successful run forces both divisors to be nonzero: with a zero
divisor the pipeline raises instead of producing a record. -/
theorem compute_income_ok_divisors (cfg : Config) (r : Result)
    (h : compute_income cfg = Except.ok r) :
    cfg.xp_cash_denom ≠ 0 ∧ (cfg.treasure_types : ℚ) ≠ 0 := by
  by_cases hd : cfg.xp_cash_denom = 0
  · simp only [compute_income, pydiv, if_pos hd, bind, Except.bind] at h
    exact Except.noConfusion h
  · by_cases ht : (cfg.treasure_types : ℚ) = 0
    · simp only [compute_income, pydiv, if_neg hd, if_pos ht, bind, Except.bind] at h
      exact Except.noConfusion h
    · exact ⟨hd, ht⟩

/-- C1 (counterexample): with `treasure_types = 0` and every other field
at its default, `compute_income` aborts with a `ZeroDivisionError`; no
result record carrying an infinite or undefined value is returned. -/
theorem zero_treasure_types_raises :
    compute_income { defaultConfig with treasure_types := 0 }
      = Except.error PyError.zeroDivision := by
  norm_num [compute_income, pydiv, defaultConfig, bind, Except.bind]

/-- C1 (amended): a configuration with `treasure_types = 0` or
`xp_cash_denom = 0` makes `compute_income` raise a `ZeroDivisionError`
(Python division by zero raises; it does not produce an infinite value),
so the computation aborts instead of returning a result record. -/
theorem zero_divisor_raises (cfg : Config)
    (h : cfg.treasure_types = 0 ∨ cfg.xp_cash_denom = 0) :
    compute_income cfg = Except.error PyError.zeroDivision := by
  by_cases hd : cfg.xp_cash_denom = 0
  · simp only [compute_income, pydiv, if_pos hd, bind, Except.bind]
  · rcases h with ht | hd2
    · have ht2 : (cfg.treasure_types : ℚ) = 0 := by rw [ht]; exact Int.cast_zero
      simp only [compute_income, pydiv, if_neg hd, if_pos ht2, bind, Except.bind]
    · exact absurd hd2 hd

/-- C1 (witness for the amended theorem): concrete run with
`xp_cash_denom = 0`. -/
theorem zero_divisor_raises_witness :
    compute_income { defaultConfig with xp_cash_denom := 0 }
      = Except.error PyError.zeroDivision :=
  zero_divisor_raises { defaultConfig with xp_cash_denom := 0 } (Or.inr rfl)

/-- C3: for every configuration on which `compute_income` returns a
result record, the conservation identity
`mending_books_per_hour + sellable_non_mending_books + grind_books =
books_per_hour` holds exactly, whatever the rates (even when
`grind_books` is negative). -/
theorem book_conservation (cfg : Config) (r : Result)
    (h : compute_income cfg = Except.ok r) :
    r.mending_books_per_hour + r.sellable_non_mending_books + r.grind_books
      = r.books_per_hour := by
  obtain ⟨hd, ht⟩ := compute_income_ok_divisors cfg r h
  rw [compute_income_eq cfg hd ht] at h
  injection h with h
  subst h
  dsimp only
  ring

/-- C3 (witness): the conservation identity at the default
configuration. -/
theorem book_conservation_witness :
    ∃ r, compute_income defaultConfig = Except.ok r ∧
      r.mending_books_per_hour + r.sellable_non_mending_books + r.grind_books
        = r.books_per_hour := by
  have h := compute_income_eq defaultConfig (by norm_num [defaultConfig])
    (by norm_num [defaultConfig])
  exact ⟨_, h, book_conservation defaultConfig _ h⟩

/-- C6: whenever `xp_cash_denom` is nonzero and `compute_income` returns
a result record, `yen_from_fishing` equals
`catches_per_hour * avg_xp_per_catch * (xp_cash_numer / xp_cash_denom)`,
independently of every other parameter. -/
theorem yen_from_fishing_eq (cfg : Config) (r : Result)
    (_hdenom : cfg.xp_cash_denom ≠ 0)
    (h : compute_income cfg = Except.ok r) :
    r.yen_from_fishing
      = cfg.catches_per_hour * cfg.avg_xp_per_catch
          * (cfg.xp_cash_numer / cfg.xp_cash_denom) := by
  obtain ⟨hd, ht⟩ := compute_income_ok_divisors cfg r h
  rw [compute_income_eq cfg hd ht] at h
  injection h with h
  subst h
  dsimp only

/-- C6 (witness): the XP conversion identity at the default
configuration. -/
theorem yen_from_fishing_eq_witness :
    ∃ r, compute_income defaultConfig = Except.ok r ∧
      r.yen_from_fishing
        = defaultConfig.catches_per_hour * defaultConfig.avg_xp_per_catch
            * (defaultConfig.xp_cash_numer / defaultConfig.xp_cash_denom) := by
  have h := compute_income_eq defaultConfig (by norm_num [defaultConfig])
    (by norm_num [defaultConfig])
  exact ⟨_, h,
    yen_from_fishing_eq defaultConfig _ (by norm_num [defaultConfig]) h⟩

/-- C9: `compute_income` is deterministic: equal configurations produce
equal outcomes.  (Non-mutation of the configuration is structural: the
source reads `cfg` fields and never assigns them, so the embedding is a
pure function of the input record.) -/
theorem compute_income_deterministic (c1 c2 : Config) (h : c1 = c2) :
    compute_income c1 = compute_income c2 := by
  rw [h]

/-- C9 (witness): determinism at the default configuration. -/
theorem compute_income_deterministic_witness :
    compute_income defaultConfig = compute_income defaultConfig :=
  compute_income_deterministic defaultConfig defaultConfig rfl

/-- C10: whenever `treasure_types` is nonzero and `compute_income`
returns a result record, `tools_per_hour = 2 * books_per_hour` exactly,
regardless of the value of `treasure_types`. -/
theorem tools_twice_books (cfg : Config) (r : Result)
    (_htypes : cfg.treasure_types ≠ 0)
    (h : compute_income cfg = Except.ok r) :
    r.tools_per_hour = 2 * r.books_per_hour := by
  obtain ⟨hd, ht⟩ := compute_income_ok_divisors cfg r h
  rw [compute_income_eq cfg hd ht] at h
  injection h with h
  subst h
  dsimp only
  ring

/-- C10 (witness): `tools_per_hour = 2 * books_per_hour` at the default
configuration. -/
theorem tools_twice_books_witness :
    ∃ r, compute_income defaultConfig = Except.ok r ∧
      r.tools_per_hour = 2 * r.books_per_hour := by
  have h := compute_income_eq defaultConfig (by norm_num [defaultConfig])
    (by norm_num [defaultConfig])
  exact ⟨_, h, tools_twice_books defaultConfig _ (by norm_num [defaultConfig]) h⟩

/-- The example scenario of the spec: `catches_per_hour = 500`,
`treasure_rate = 0.113`, `treasure_types = 6`,
`book_mending_rate = 0.0377`, every other field at its documented
default. -/
def exampleConfig : Config :=
  { catches_per_hour := 500
    treasure_rate := 0.113
    treasure_types := 6
    book_mending_rate := 0.0377 }

/-- C2: on the example scenario, `compute_income` returns
`treasures_per_hour = 56.5`, `books_per_hour = 56.5 / 6 = 113/12 =
9.4166...`, and `mending_books_per_hour = books_per_hour * 0.0377 =
42601/120000 ≈ 0.355`, exactly as algorithm steps 2-4 prescribe. -/
theorem example_scenario :
    ∃ r, compute_income exampleConfig = Except.ok r ∧
      r.treasures_per_hour = 56.5 ∧
      r.books_per_hour = 56.5 / 6 ∧
      r.books_per_hour = 113 / 12 ∧
      r.mending_books_per_hour = r.books_per_hour * 0.0377 ∧
      r.mending_books_per_hour = 42601 / 120000 := by
  have h := compute_income_eq exampleConfig (by norm_num [exampleConfig])
    (by norm_num [exampleConfig])
  refine ⟨_, h, ?_, ?_, ?_, ?_, ?_⟩ <;> norm_num [exampleConfig]

/-- C7: whenever `treasure_rate = 0` and `treasure_types` is nonzero,
any result record of `compute_income` has zero treasures, books and
tools per hour, zero book and tool revenue terms, and
`fish_per_hour = catches_per_hour` exactly. -/
theorem zero_treasure_boundary (cfg : Config) (r : Result)
    (h0 : cfg.treasure_rate = 0) (_htypes : cfg.treasure_types ≠ 0)
    (h : compute_income cfg = Except.ok r) :
    r.treasures_per_hour = 0 ∧ r.books_per_hour = 0 ∧ r.tools_per_hour = 0 ∧
      r.revenue_mending = 0 ∧ r.revenue_non_mending = 0 ∧
      r.yen_from_books = 0 ∧ r.yen_from_tools = 0 ∧
      r.fish_per_hour = cfg.catches_per_hour := by
  obtain ⟨hd, ht⟩ := compute_income_ok_divisors cfg r h
  rw [compute_income_eq cfg hd ht] at h
  injection h with h
  subst h
  dsimp only
  rw [h0]
  norm_num

/-- C7 (witness): the zero-treasure boundary at the default
configuration with `treasure_rate` set to `0`. -/
theorem zero_treasure_boundary_witness :
    ∃ r, compute_income { defaultConfig with treasure_rate := 0 }
        = Except.ok r ∧
      r.treasures_per_hour = 0 ∧ r.books_per_hour = 0 ∧ r.tools_per_hour = 0 ∧
      r.revenue_mending = 0 ∧ r.revenue_non_mending = 0 ∧
      r.yen_from_books = 0 ∧ r.yen_from_tools = 0 ∧
      r.fish_per_hour
        = ({ defaultConfig with treasure_rate := 0 } : Config).catches_per_hour := by
  have h := compute_income_eq { defaultConfig with treasure_rate := 0 }
    (by norm_num [defaultConfig]) (by norm_num [defaultConfig])
  exact ⟨_, h, zero_treasure_boundary _ _ rfl (by norm_num [defaultConfig]) h⟩

/-- C8: whenever `treasure_rate = 1`, any result record of
`compute_income` has `fish_per_hour = 0`, all four per-type fish counts
zero, and `revenue_fish = 0`. -/
theorem full_treasure_boundary (cfg : Config) (r : Result)
    (h1 : cfg.treasure_rate = 1)
    (h : compute_income cfg = Except.ok r) :
    r.fish_per_hour = 0 ∧ r.cod = 0 ∧ r.salmon = 0 ∧ r.puffer = 0 ∧
      r.tropical = 0 ∧ r.revenue_fish = 0 := by
  obtain ⟨hd, ht⟩ := compute_income_ok_divisors cfg r h
  rw [compute_income_eq cfg hd ht] at h
  injection h with h
  subst h
  dsimp only
  rw [h1]
  norm_num

/-- C8 (witness): the full-treasure boundary at the default
configuration with `treasure_rate` set to `1`. -/
theorem full_treasure_boundary_witness :
    ∃ r, compute_income { defaultConfig with treasure_rate := 1 }
        = Except.ok r ∧
      r.fish_per_hour = 0 ∧ r.cod = 0 ∧ r.salmon = 0 ∧ r.puffer = 0 ∧
      r.tropical = 0 ∧ r.revenue_fish = 0 := by
  have h := compute_income_eq { defaultConfig with treasure_rate := 1 }
    (by norm_num [defaultConfig]) (by norm_num [defaultConfig])
  exact ⟨_, h, full_treasure_boundary _ _ rfl h⟩

/-- C4: scaling `catches_per_hour` by any factor `k` (all other fields
fixed) scales every derived per-hour count, every revenue term and the
grand total of `compute_income` by exactly `k`. -/
theorem linear_in_catches (cfg : Config) (k : ℚ) (r : Result)
    (h : compute_income cfg = Except.ok r) :
    ∃ r2, compute_income
          { cfg with catches_per_hour := k * cfg.catches_per_hour }
        = Except.ok r2 ∧
      r2.treasures_per_hour = k * r.treasures_per_hour ∧
      r2.books_per_hour = k * r.books_per_hour ∧
      r2.mending_books_per_hour = k * r.mending_books_per_hour ∧
      r2.mending_single_books = k * r.mending_single_books ∧
      r2.mending_multi_books = k * r.mending_multi_books ∧
      r2.sellable_non_mending_books = k * r.sellable_non_mending_books ∧
      r2.grind_books = k * r.grind_books ∧
      r2.tools_per_hour = k * r.tools_per_hour ∧
      r2.fish_per_hour = k * r.fish_per_hour ∧
      r2.cod = k * r.cod ∧
      r2.salmon = k * r.salmon ∧
      r2.puffer = k * r.puffer ∧
      r2.tropical = k * r.tropical ∧
      r2.revenue_fish = k * r.revenue_fish ∧
      r2.yen_from_fishing = k * r.yen_from_fishing ∧
      r2.revenue_mending = k * r.revenue_mending ∧
      r2.revenue_non_mending = k * r.revenue_non_mending ∧
      r2.yen_from_books = k * r.yen_from_books ∧
      r2.yen_from_tools = k * r.yen_from_tools ∧
      r2.total_yen_per_hour = k * r.total_yen_per_hour := by
  obtain ⟨hd, ht⟩ := compute_income_ok_divisors cfg r h
  rw [compute_income_eq cfg hd ht] at h
  injection h with h
  subst h
  have h2 := compute_income_eq
    { cfg with catches_per_hour := k * cfg.catches_per_hour } hd ht
  refine ⟨_, h2, ?_, ?_, ?_, ?_, ?_, ?_, ?_, ?_, ?_, ?_, ?_, ?_, ?_, ?_, ?_,
    ?_, ?_, ?_, ?_, ?_⟩ <;> (dsimp only; ring)

/-- C4 (witness): tripling `catches_per_hour` at the default
configuration triples every derived quantity. -/
theorem linear_in_catches_witness :
    ∃ r, compute_income defaultConfig = Except.ok r ∧
      ∃ r2, compute_income
            { defaultConfig with
                catches_per_hour := 3 * defaultConfig.catches_per_hour }
          = Except.ok r2 ∧
        r2.treasures_per_hour = 3 * r.treasures_per_hour ∧
        r2.books_per_hour = 3 * r.books_per_hour ∧
        r2.mending_books_per_hour = 3 * r.mending_books_per_hour ∧
        r2.mending_single_books = 3 * r.mending_single_books ∧
        r2.mending_multi_books = 3 * r.mending_multi_books ∧
        r2.sellable_non_mending_books = 3 * r.sellable_non_mending_books ∧
        r2.grind_books = 3 * r.grind_books ∧
        r2.tools_per_hour = 3 * r.tools_per_hour ∧
        r2.fish_per_hour = 3 * r.fish_per_hour ∧
        r2.cod = 3 * r.cod ∧
        r2.salmon = 3 * r.salmon ∧
        r2.puffer = 3 * r.puffer ∧
        r2.tropical = 3 * r.tropical ∧
        r2.revenue_fish = 3 * r.revenue_fish ∧
        r2.yen_from_fishing = 3 * r.yen_from_fishing ∧
        r2.revenue_mending = 3 * r.revenue_mending ∧
        r2.revenue_non_mending = 3 * r.revenue_non_mending ∧
        r2.yen_from_books = 3 * r.yen_from_books ∧
        r2.yen_from_tools = 3 * r.yen_from_tools ∧
        r2.total_yen_per_hour = 3 * r.total_yen_per_hour := by
  have h := compute_income_eq defaultConfig (by norm_num [defaultConfig])
    (by norm_num [defaultConfig])
  exact ⟨_, h, linear_in_catches defaultConfig 3 _ h⟩

/-- The two numeric parse types used by the argument parser in `main`
(`type=float` and `type=int`). -/
inductive ArgType where
  | float
  | int
deriving DecidableEq

/-- One optional command-line flag registered in `main`: the flag text,
the destination attribute name argparse derives from it (dashes become
underscores), the parse type, and the declared default value. -/
structure CliFlag where
  flag : String
  dest : String
  argType : ArgType
  defaultVal : ℚ
deriving DecidableEq

/-- The flags registered by `main` (`man10-fish.py`, lines 200-223), in
source order.  Only these eighteen configuration parameters can be set
from the command line. -/
def cliFlags : List CliFlag :=
  [ ⟨"--catches-per-hour", "catches_per_hour", ArgType.float, 500.0⟩,
    ⟨"--treasure-rate", "treasure_rate", ArgType.float, 0.113⟩,
    ⟨"--fish-price-cod", "fish_price_cod", ArgType.int, 20⟩,
    ⟨"--fish-price-salmon", "fish_price_salmon", ArgType.int, 80⟩,
    ⟨"--fish-price-puffer", "fish_price_puffer", ArgType.int, 180⟩,
    ⟨"--fish-price-tropical", "fish_price_tropical", ArgType.int, 400⟩,
    ⟨"--book-mending-rate", "book_mending_rate", ArgType.float, 0.0377⟩,
    ⟨"--book-mending-single-rate", "book_mending_single_rate", ArgType.float, 0.409⟩,
    ⟨"--book-mending-multi-rate", "book_mending_multi_rate", ArgType.float, 0.591⟩,
    ⟨"--book-smite-only-rate", "book_smite_only_rate", ArgType.float, 0.0074⟩,
    ⟨"--book-bane-only-rate", "book_bane_only_rate", ArgType.float, 0.0049⟩,
    ⟨"--book-unb3-only-rate", "book_unb3_only_rate", ArgType.float, 0.0143⟩,
    ⟨"--avg-enchants-per-book", "avg_enchants_per_book", ArgType.float, 2.11⟩,
    ⟨"--avg-xp-per-enchant", "avg_xp_per_enchant", ArgType.float, 25.0⟩,
    ⟨"--avg-xp-per-catch", "avg_xp_per_catch", ArgType.float, 3.5⟩,
    ⟨"--xp-cash-numer", "xp_cash_numer", ArgType.float, 40.0⟩,
    ⟨"--xp-cash-denom", "xp_cash_denom", ArgType.float, 12.0⟩,
    ⟨"--avg-enchants-per-tool", "avg_enchants_per_tool", ArgType.float, 3.0⟩ ]

/-- The fields of the `Config` dataclass (`man10-fish.py`, lines 30-88),
in source order, each with its semantic parse type (`float` or `int`)
and its documented default. -/
def configFields : List (String × ArgType × ℚ) :=
  [ ("catches_per_hour", ArgType.float, 500.0),
    ("treasure_rate", ArgType.float, 0.113),
    ("treasure_types", ArgType.int, 6),
    ("fish_rate_cod", ArgType.float, 0.60),
    ("fish_rate_salmon", ArgType.float, 0.25),
    ("fish_rate_puffer", ArgType.float, 0.13),
    ("fish_rate_tropical", ArgType.float, 0.02),
    ("fish_price_cod", ArgType.int, 20),
    ("fish_price_salmon", ArgType.int, 80),
    ("fish_price_puffer", ArgType.int, 180),
    ("fish_price_tropical", ArgType.int, 400),
    ("book_mending_rate", ArgType.float, 0.0377),
    ("book_mending_single_rate", ArgType.float, 0.409),
    ("book_mending_multi_rate", ArgType.float, 0.591),
    ("book_smite_only_rate", ArgType.float, 0.0074),
    ("book_bane_only_rate", ArgType.float, 0.0049),
    ("book_unb3_only_rate", ArgType.float, 0.0143),
    ("avg_enchants_per_book", ArgType.float, 2.11),
    ("avg_xp_per_enchant", ArgType.float, 25.0),
    ("avg_xp_per_catch", ArgType.float, 3.5),
    ("xp_cash_numer", ArgType.float, 40.0),
    ("xp_cash_denom", ArgType.float, 12.0),
    ("avg_enchants_per_tool", ArgType.float, 3.0),
    ("price_mending_single", ArgType.int, 220000),
    ("price_mending_multi", ArgType.int, 120000),
    ("price_smite_only", ArgType.int, 15000),
    ("price_bane_only", ArgType.int, 15000),
    ("price_unb3_only", ArgType.int, 5000) ]

/-- C5 (counterexample): `treasure_types` is a configuration field of
the data model, yet `main` registers no flag whose destination is
`treasure_types`, so the CLI does not accept a flag for every
configuration field. -/
theorem cli_missing_treasure_types_flag :
    ((configFields.map (fun f => f.1)).contains "treasure_types") = true ∧
      ((cliFlags.map (fun c => c.dest)).contains "treasure_types") = false := by
  constructor <;> decide

/-- C5 (amended): the CLI accepts an optional flag for eighteen of the
twenty-eight configuration fields — each such flag carrying the field's
documented default and its semantic parse type — while `treasure_types`,
the four fish-type rates, and the five book sale prices have no flag and
are settable only through their defaults. -/
theorem cli_flags_cover_eighteen_fields :
    (cliFlags.map (fun c => c.dest)
      = [ "catches_per_hour", "treasure_rate", "fish_price_cod",
          "fish_price_salmon", "fish_price_puffer", "fish_price_tropical",
          "book_mending_rate", "book_mending_single_rate",
          "book_mending_multi_rate", "book_smite_only_rate",
          "book_bane_only_rate", "book_unb3_only_rate",
          "avg_enchants_per_book", "avg_xp_per_enchant", "avg_xp_per_catch",
          "xp_cash_numer", "xp_cash_denom", "avg_enchants_per_tool" ]) ∧
    ((configFields.map (fun f => f.1)).filter
        (fun n => !((cliFlags.map (fun c => c.dest)).contains n))
      = [ "treasure_types", "fish_rate_cod", "fish_rate_salmon",
          "fish_rate_puffer", "fish_rate_tropical", "price_mending_single",
          "price_mending_multi", "price_smite_only", "price_bane_only",
          "price_unb3_only" ]) ∧
    (∀ c ∈ cliFlags, (c.dest, c.argType, c.defaultVal) ∈ configFields) := by
  refine ⟨by decide, by decide, ?_⟩
  intro c hc
  simp only [cliFlags, List.mem_cons, List.not_mem_nil, or_false] at hc
  rcases hc with rfl | rfl | rfl | rfl | rfl | rfl | rfl | rfl | rfl | rfl |
    rfl | rfl | rfl | rfl | rfl | rfl | rfl | rfl <;> simp [configFields]

end Man10Fish
